import Mathlib

/-!
# Verification of the weather-fetch core of the custom MCP weather server

Shallow embedding of `fetch_weather_data` (from `weather_server.py` and
`simple_weather_server.py`) and of the debug variant's `get_weather` tool
(`debug_weather_server.py`).

Modelling conventions:
* Python floats are modelled as exact rationals (`ℚ`); Python's `round(x, 1)`
  is modelled as exact decimal round-half-to-even (`round1` below).
* The single outbound HTTP GET is modelled by passing in the upstream's
  behaviour (`UpstreamResult`) and returning, alongside the result, the list
  of HTTP requests that the call issued (its network trace).
* Python exceptions raised by `fetch_weather_data` are modelled as an
  `Except` error value carrying the variable parts of the exception message
  (the city for `City '{city}' not found`, the status code for
  `Weather API error: {code}`, the cause text for
  `Failed to fetch weather data: {cause}`).
-/

namespace WeatherMCP

/-- Banker's rounding of a rational to an integer: round to the nearest
integer, ties to the even neighbour.  This is the behaviour of Python's
built-in `round` on the exact value of its argument. -/
def roundHalfEven (q : ℚ) : ℤ :=
  let n : ℤ := ⌊q⌋
  let frac : ℚ := q - n
  if frac < 1/2 then n
  else if 1/2 < frac then n + 1
  else if n % 2 = 0 then n else n + 1

/-- Python's `round(x, 1)`: round to one decimal place, ties to even. -/
def round1 (q : ℚ) : ℚ := (roundHalfEven (q * 10) : ℚ) / 10

/-- The weather record: the dictionary returned by `fetch_weather_data`,
fields in source order.  All six fields are mandatory: both return paths of
the source construct the dictionary with all six keys present. -/
structure WeatherRecord where
  city_name : String
  temperature_celsius : ℚ
  temperature_fahrenheit : ℚ
  condition : String
  humidity : ℤ
  description : String
deriving DecidableEq, Repr

/-- The failure taxonomy of `fetch_weather_data`: the three `raise Exception`
sites, each carrying the variable part of its message. -/
inductive Failure where
  /-- `raise Exception(f"City '\x7bcity\x7d' not found")` on a 404. -/
  | cityNotFound (city : String)
  /-- `raise Exception(f"Weather API error: \x7bstatus\x7d")` on another
  non-success status. -/
  | upstreamError (status : Nat)
  /-- `raise Exception(f"Failed to fetch weather data: \x7bcause\x7d")` on a
  network-level failure or malformed payload. -/
  | transportError (cause : String)
deriving DecidableEq, Repr

/-- The fields of the upstream JSON body that `fetch_weather_data` reads:
`name`, `main.temp`, `main.humidity`, `weather[0].main`,
`weather[0].description`. -/
structure WeatherPayload where
  name : String
  main_temp : ℚ
  main_humidity : ℤ
  weather_main : String
  weather_description : String
deriving DecidableEq, Repr

/-- The body of an upstream HTTP response, as seen by the extraction code:
either all expected fields parse, or JSON decoding / field lookup raises
(`malformed`, carrying the exception text). -/
inductive ParsedBody where
  | malformed (cause : String)
  | parsed (data : WeatherPayload)
deriving DecidableEq, Repr

/-- The behaviour of the single upstream HTTP GET: either the request never
completes (timeout, connection refused — carrying the exception text), or a
response arrives with a status code and a body. -/
inductive UpstreamResult where
  | noResponse (cause : String)
  | response (status : Nat) (body : ParsedBody)
deriving DecidableEq, Repr

/-- One outbound HTTP request, as built by `client.get(OPENWEATHER_BASE_URL,
params=...)`. -/
structure HttpRequest where
  url : String
  q : String
  appid : String
  units : String
deriving DecidableEq, Repr

def OPENWEATHER_BASE_URL : String := "https://api.openweathermap.org/data/2.5/weather"

/-- The request issued on the live path: `params={"q": city, "appid":
OPENWEATHER_API_KEY, "units": "metric"}`. -/
def weatherRequest (apiKey city : String) : HttpRequest :=
  { url := OPENWEATHER_BASE_URL, q := city, appid := apiKey, units := "metric" }

/-- The mock record of `weather_server.py` (lines 38–45). -/
def mockRecord (city : String) : WeatherRecord :=
  { city_name := city
    temperature_celsius := 22.5
    temperature_fahrenheit := 72.5
    condition := "Partly Cloudy"
    humidity := 65
    description := "Mock weather data - please set OPENWEATHER_API_KEY environment variable" }

/-- The mock record of `simple_weather_server.py` (lines 26–33); it differs
from `mockRecord` only in the description text. -/
def simpleMockRecord (city : String) : WeatherRecord :=
  { city_name := city
    temperature_celsius := 22.5
    temperature_fahrenheit := 72.5
    condition := "Partly Cloudy"
    humidity := 65
    description := "Mock weather data - please set OPENWEATHER_API_KEY" }

/-- The record built from a well-formed 200 body (lines 59–72 of
`weather_server.py`): `temp_fahrenheit = (temp_celsius * 9/5) + 32` computed
from the raw payload temperature, then both temperatures rounded to one
decimal. -/
def liveRecord (data : WeatherPayload) : WeatherRecord :=
  { city_name := data.name
    temperature_celsius := round1 data.main_temp
    temperature_fahrenheit := round1 (data.main_temp * 9 / 5 + 32)
    condition := data.weather_main
    humidity := data.main_humidity
    description := data.weather_description }

/-- The live path of `fetch_weather_data` (the `async with httpx.AsyncClient()`
block, lines 47–79): issues exactly one GET; `response.raise_for_status()`
raises on any non-2xx status, the 404 handler runs before the generic one,
and exceptions raised inside the `except httpx.HTTPStatusError` clause
propagate (they are not re-caught by the later `except Exception`). -/
def livePath (apiKey city : String) (upstream : UpstreamResult) :
    Except Failure WeatherRecord × List HttpRequest :=
  (match upstream with
    | .noResponse cause => .error (.transportError cause)
    | .response status body =>
      if 200 ≤ status ∧ status < 300 then
        match body with
        | .malformed cause => .error (.transportError cause)
        | .parsed data => .ok (liveRecord data)
      else if status = 404 then .error (.cityNotFound city)
      else .error (.upstreamError status),
   [weatherRequest apiKey city])

/-- `fetch_weather_data` of `weather_server.py` (lines 23–79).  The first
component is the returned record or the raised exception; the second is the
network trace of the call (the requests issued). -/
def fetch_weather_data (OPENWEATHER_API_KEY city : String)
    (upstream : UpstreamResult) :
    Except Failure WeatherRecord × List HttpRequest :=
  if OPENWEATHER_API_KEY = "your_api_key_here" then
    (.ok (mockRecord city), [])
  else
    livePath OPENWEATHER_API_KEY city upstream

/-- `fetch_weather_data` of `simple_weather_server.py` (lines 22–65): same
logic, mock description without the words "environment variable". -/
def simple_fetch_weather_data (OPENWEATHER_API_KEY city : String)
    (upstream : UpstreamResult) :
    Except Failure WeatherRecord × List HttpRequest :=
  if OPENWEATHER_API_KEY = "your_api_key_here" then
    (.ok (simpleMockRecord city), [])
  else
    livePath OPENWEATHER_API_KEY city upstream

/-- The module-level state of `weather_server.py` that `fetch_weather_data`
can see: the global `OPENWEATHER_API_KEY`, set once at import and never
assigned afterwards. -/
structure ModuleState where
  OPENWEATHER_API_KEY : String
deriving DecidableEq, Repr

/-- One invocation of `fetch_weather_data` as a state transformer over the
module state.  The source only ever reads the global, so the state after the
call is the state before it. -/
def fetchCall (st : ModuleState) (city : String) (upstream : UpstreamResult) :
    (Except Failure WeatherRecord × List HttpRequest) × ModuleState :=
  (fetch_weather_data st.OPENWEATHER_API_KEY city upstream, st)

/-- Evaluation rule for `roundHalfEven` when the fractional part is below one
half. -/
theorem roundHalfEven_eq_of_lt_half (q : ℚ) (n : ℤ) (h₀ : (n : ℚ) ≤ q)
    (h₁ : q - n < 1/2) : roundHalfEven q = n := by
  have hf : ⌊q⌋ = n := Int.floor_eq_iff.mpr ⟨h₀, by linarith⟩
  simp only [roundHalfEven, hf]
  rw [if_pos h₁]

/-- Evaluation rule for `roundHalfEven` when the fractional part is above one
half. -/
theorem roundHalfEven_eq_of_half_lt (q : ℚ) (n : ℤ) (h₀ : (n : ℚ) ≤ q)
    (h₁ : 1/2 < q - n) (h₂ : q < n + 1) : roundHalfEven q = n + 1 := by
  have hf : ⌊q⌋ = n := Int.floor_eq_iff.mpr ⟨h₀, h₂⟩
  simp only [roundHalfEven, hf]
  rw [if_neg (by linarith), if_pos h₁]

/-- Evaluation rule for `round1`, fractional part below one half. -/
theorem round1_eq_of_lt_half (q : ℚ) (n : ℤ) (h₀ : (n : ℚ) ≤ q * 10)
    (h₁ : q * 10 - n < 1/2) : round1 q = (n : ℚ) / 10 := by
  unfold round1
  rw [roundHalfEven_eq_of_lt_half (q * 10) n h₀ h₁]

/-- Evaluation rule for `round1`, fractional part above one half. -/
theorem round1_eq_of_half_lt (q : ℚ) (n : ℤ) (h₀ : (n : ℚ) ≤ q * 10)
    (h₁ : 1/2 < q * 10 - n) (h₂ : q * 10 < n + 1) :
    round1 q = ((n : ℚ) + 1) / 10 := by
  unfold round1
  rw [roundHalfEven_eq_of_half_lt (q * 10) n h₀ h₁ h₂]
  push_cast
  ring

/-- A concrete well-formed 200 payload whose temperature has two decimal
places, as the upstream routinely sends (e.g. `"temp": 15.06`). -/
def payloadLondon : WeatherPayload :=
  { name := "London"
    main_temp := 15.06
    main_humidity := 80
    weather_main := "Rain"
    weather_description := "light rain" }

/-- A structurally well-formed 200 payload whose humidity field is out of
percentage range; the extraction code parses it without any range check. -/
def payloadHumidity150 : WeatherPayload :=
  { name := "Atlantis"
    main_temp := 20
    main_humidity := 150
    weather_main := "Haze"
    weather_description := "haze" }

/-- `get_weather` of `debug_weather_server.py` (lines 21–56).  `showFloat`
renders a Python float into the f-string (only the live temperature needs
it) and `statusText` renders `str(e)` for an `httpx.HTTPStatusError`; both
are abstract rendering parameters of the host language.  The single
`except Exception` clause turns every failure into an error message string
prefixed with the server banner. -/
def debug_get_weather (showFloat : ℚ → String) (statusText : Nat → String)
    (OPENWEATHER_API_KEY city : String) (upstream : UpstreamResult) :
    String × List HttpRequest :=
  if OPENWEATHER_API_KEY = "your_api_key_here" then
    ("🌤️ [YOUR CUSTOM MCP SERVER] Mock weather for " ++ city ++
       ": 22°C, sunny, 60% humidity", [])
  else
    (match upstream with
      | .noResponse cause =>
          "🌤️ [YOUR CUSTOM MCP SERVER] Error getting weather for " ++ city ++
            ": " ++ cause
      | .response status body =>
        if 200 ≤ status ∧ status < 300 then
          match body with
          | .malformed cause =>
              "🌤️ [YOUR CUSTOM MCP SERVER] Error getting weather for " ++ city ++
                ": " ++ cause
          | .parsed d =>
              "🌤️ [YOUR CUSTOM MCP SERVER] Weather in " ++ city ++ ": " ++
                showFloat d.main_temp ++ "°C, " ++ d.weather_main ++ ", " ++
                toString d.main_humidity ++ "% humidity"
        else
          "🌤️ [YOUR CUSTOM MCP SERVER] Error getting weather for " ++ city ++
            ": " ++ statusText status,
     [weatherRequest OPENWEATHER_API_KEY city])

/-- Claim C1: with the placeholder credential, `fetch_weather_data` returns,
for every city and every upstream behaviour, a record with `city_name` equal
to the input city, 22.5 °C, 72.5 °F, condition "Partly Cloudy", humidity 65
and a mock-flagged description; the network trace is empty (no HTTP request
is issued) and the result is a success, never a failure.  The simple
variant behaves identically up to its mock description text. -/
theorem mock_path_complete (city : String) (upstream : UpstreamResult) :
    fetch_weather_data "your_api_key_here" city upstream =
      (.ok (mockRecord city), []) ∧
    (mockRecord city).city_name = city ∧
    (mockRecord city).temperature_celsius = 22.5 ∧
    (mockRecord city).temperature_fahrenheit = 72.5 ∧
    (mockRecord city).condition = "Partly Cloudy" ∧
    (mockRecord city).humidity = 65 ∧
    (mockRecord city).description =
      "Mock weather data - please set OPENWEATHER_API_KEY environment variable" ∧
    simple_fetch_weather_data "your_api_key_here" city upstream =
      (.ok (simpleMockRecord city), []) ∧
    (simpleMockRecord city).temperature_celsius = 22.5 ∧
    (simpleMockRecord city).humidity = 65 :=
  ⟨rfl, rfl, rfl, rfl, rfl, rfl, rfl, rfl, rfl, rfl⟩

/-- Claim C2, counterexample: on the live path the code derives Fahrenheit
from the unrounded payload temperature, so for payload temperature 15.06 the
stored record has `temperature_fahrenheit = 59.1`, while recomputing the
conversion from the stored (rounded) `temperature_celsius = 15.1` and
rounding gives 59.2.  The claim's equation fails on this record. -/
theorem fahrenheit_not_from_rounded_celsius :
    (fetch_weather_data "realkey" "London"
        (.response 200 (.parsed payloadLondon))).1 = .ok (liveRecord payloadLondon) ∧
    (liveRecord payloadLondon).temperature_celsius = 15.1 ∧
    (liveRecord payloadLondon).temperature_fahrenheit = 59.1 ∧
    round1 ((liveRecord payloadLondon).temperature_celsius * 9 / 5 + 32) = 59.2 ∧
    (liveRecord payloadLondon).temperature_fahrenheit ≠
      round1 ((liveRecord payloadLondon).temperature_celsius * 9 / 5 + 32) := by
  have hc : (liveRecord payloadLondon).temperature_celsius = 15.1 := by
    show round1 (15.06 : ℚ) = 15.1
    rw [round1_eq_of_half_lt _ 150 (by norm_num) (by norm_num) (by norm_num)]
    norm_num
  have hf : (liveRecord payloadLondon).temperature_fahrenheit = 59.1 := by
    show round1 ((15.06 : ℚ) * 9 / 5 + 32) = 59.1
    rw [round1_eq_of_lt_half _ 591 (by norm_num) (by norm_num)]
    norm_num
  have hs : round1 ((liveRecord payloadLondon).temperature_celsius * 9 / 5 + 32) = 59.2 := by
    rw [hc]
    rw [round1_eq_of_half_lt _ 591 (by norm_num) (by norm_num) (by norm_num)]
    norm_num
  refine ⟨by simp [fetch_weather_data, livePath], hc, hf, hs, ?_⟩
  rw [hf, hs]
  norm_num

/-- Claim C2, amended: for every live-path record built from a well-formed
200 response, `temperature_celsius` is the payload temperature rounded to
one decimal and `temperature_fahrenheit` is `round1` of the conversion
applied to the *unrounded* payload temperature (`(temp * 9/5) + 32`), not to
the stored rounded Celsius field. -/
theorem live_record_temperature_rounding (key city : String) (d : WeatherPayload)
    (hk : key ≠ "your_api_key_here") :
    (fetch_weather_data key city (.response 200 (.parsed d))).1 = .ok (liveRecord d) ∧
    (liveRecord d).temperature_celsius = round1 d.main_temp ∧
    (liveRecord d).temperature_fahrenheit = round1 (d.main_temp * 9 / 5 + 32) := by
  refine ⟨?_, rfl, rfl⟩
  simp [fetch_weather_data, livePath, hk]

/-- Witness for `live_record_temperature_rounding` at a concrete key, city
and payload. -/
theorem live_record_temperature_rounding_witness :
    ("realkey2" : String) ≠ "your_api_key_here" ∧
    ((fetch_weather_data "realkey2" "London"
        (.response 200 (.parsed payloadLondon))).1 = .ok (liveRecord payloadLondon) ∧
      (liveRecord payloadLondon).temperature_celsius = round1 payloadLondon.main_temp ∧
      (liveRecord payloadLondon).temperature_fahrenheit =
        round1 (payloadLondon.main_temp * 9 / 5 + 32)) :=
  ⟨by decide, live_record_temperature_rounding "realkey2" "London" payloadLondon (by decide)⟩

/-- Claim C3: on the live path, an upstream 404 yields the `CityNotFound`
failure carrying the requested (input) city, whatever the response body; no
record is constructed. -/
theorem http_404_yields_city_not_found (key city : String) (body : ParsedBody)
    (hk : key ≠ "your_api_key_here") :
    (fetch_weather_data key city (.response 404 body)).1 =
      .error (.cityNotFound city) := by
  simp [fetch_weather_data, livePath, hk]

/-- Witness for `http_404_yields_city_not_found` on city "Nowhereville". -/
theorem http_404_yields_city_not_found_witness :
    ("k404" : String) ≠ "your_api_key_here" ∧
    (fetch_weather_data "k404" "Nowhereville" (.response 404 (.malformed "m"))).1 =
      .error (.cityNotFound "Nowhereville") :=
  ⟨by decide,
   http_404_yields_city_not_found "k404" "Nowhereville" (.malformed "m") (by decide)⟩

/-- Claim C4: on the live path, a response with any non-success status other
than 404 yields the `UpstreamError` failure carrying that status code. -/
theorem non_success_yields_upstream_error (key city : String) (status : Nat)
    (body : ParsedBody) (hk : key ≠ "your_api_key_here")
    (hs : ¬(200 ≤ status ∧ status < 300)) (h404 : status ≠ 404) :
    (fetch_weather_data key city (.response status body)).1 =
      .error (.upstreamError status) := by
  simp [fetch_weather_data, livePath, hk, hs, h404]

/-- Witness for `non_success_yields_upstream_error` at status 500. -/
theorem non_success_yields_upstream_error_witness :
    (("k500" : String) ≠ "your_api_key_here" ∧
      ¬(200 ≤ 500 ∧ 500 < 300) ∧ (500 : Nat) ≠ 404) ∧
    (fetch_weather_data "k500" "London" (.response 500 (.malformed "m"))).1 =
      .error (.upstreamError 500) :=
  ⟨⟨by decide, by decide, by decide⟩,
   non_success_yields_upstream_error "k500" "London" 500 (.malformed "m")
     (by decide) (by decide) (by decide)⟩

/-- Claim C5: on the live path, a request that never completes yields the
`TransportError` failure carrying the cause text, and so does a success
response whose payload fails to parse (missing expected JSON fields); in
neither case is a record constructed. -/
theorem network_failure_yields_transport_error (key city cause : String)
    (status : Nat) (hk : key ≠ "your_api_key_here")
    (hs : 200 ≤ status ∧ status < 300) :
    (fetch_weather_data key city (.noResponse cause)).1 =
      .error (.transportError cause) ∧
    (fetch_weather_data key city (.response status (.malformed cause))).1 =
      .error (.transportError cause) := by
  constructor
  · simp [fetch_weather_data, livePath, hk]
  · simp [fetch_weather_data, livePath, hk, hs]

/-- Witness for `network_failure_yields_transport_error` at status 200. -/
theorem network_failure_yields_transport_error_witness :
    (("ktr" : String) ≠ "your_api_key_here" ∧ (200 ≤ 200 ∧ 200 < 300)) ∧
    ((fetch_weather_data "ktr" "London" (.noResponse "timeout")).1 =
        .error (.transportError "timeout") ∧
      (fetch_weather_data "ktr" "London" (.response 200 (.malformed "timeout"))).1 =
        .error (.transportError "timeout")) :=
  ⟨⟨by decide, by decide, by decide⟩,
   network_failure_yields_transport_error "ktr" "London" "timeout" 200
     (by decide) ⟨by decide, by decide⟩⟩

/-- Claim C6: mock mode is selected exactly when the credential equals the
placeholder literal: the network trace is empty iff the key is
`"your_api_key_here"`, the placeholder produces the mock record for any
upstream behaviour, and in particular the empty-string credential takes the
live path and issues the upstream request. -/
theorem mock_iff_placeholder_credential (key city : String)
    (upstream : UpstreamResult) :
    ((fetch_weather_data key city upstream).2 = [] ↔ key = "your_api_key_here") ∧
    fetch_weather_data "your_api_key_here" city upstream =
      (.ok (mockRecord city), []) ∧
    (fetch_weather_data "" city upstream).2 = [weatherRequest "" city] := by
  refine ⟨⟨?_, ?_⟩, rfl, ?_⟩
  · intro h
    by_contra hk
    simp [fetch_weather_data, livePath, hk] at h
  · intro h
    simp [fetch_weather_data, h]
  · simp [fetch_weather_data, livePath]

/-- Claim C7: every invocation produces either a fully populated record —
the mock record or a record built from a parsed payload, both of which fill
all six fields — or a typed failure; there is no partial record. -/
theorem record_complete_or_typed_failure (key city : String)
    (upstream : UpstreamResult) :
    (∃ r : WeatherRecord, (fetch_weather_data key city upstream).1 = .ok r ∧
      (r = mockRecord city ∨ ∃ d : WeatherPayload, r = liveRecord d)) ∨
    (∃ f : Failure, (fetch_weather_data key city upstream).1 = .error f) := by
  by_cases hk : key = "your_api_key_here"
  · exact .inl ⟨mockRecord city, by simp [fetch_weather_data, hk], .inl rfl⟩
  · cases upstream with
    | noResponse cause =>
        exact .inr ⟨.transportError cause,
          by simp [fetch_weather_data, livePath, hk]⟩
    | response status body =>
      by_cases hs : 200 ≤ status ∧ status < 300
      · cases body with
        | malformed cause =>
            exact .inr ⟨.transportError cause,
              by simp [fetch_weather_data, livePath, hk, hs]⟩
        | parsed d =>
            exact .inl ⟨liveRecord d,
              by simp [fetch_weather_data, livePath, hk, hs], .inr ⟨d, rfl⟩⟩
      · by_cases h4 : status = 404
        · exact .inr ⟨.cityNotFound city,
            by simp [fetch_weather_data, livePath, hk, hs, h4]⟩
        · exact .inr ⟨.upstreamError status,
            by simp [fetch_weather_data, livePath, hk, hs, h4]⟩

/-- Claim C8, counterexample: the extraction code copies the payload's
humidity into the record with no range check, so a structurally well-formed
200 payload with humidity 150 yields a constructed record whose humidity is
150, outside 0–100. -/
theorem humidity_range_not_enforced :
    (fetch_weather_data "kh" "Atlantis"
        (.response 200 (.parsed payloadHumidity150))).1 =
      .ok (liveRecord payloadHumidity150) ∧
    (liveRecord payloadHumidity150).humidity = 150 ∧
    ¬((liveRecord payloadHumidity150).humidity ≤ 100) :=
  ⟨by simp [fetch_weather_data, livePath], rfl, by decide⟩

/-- Claim C8, amended: the mock record's humidity is 65, which lies in
0–100; a live record's humidity is the payload's humidity unchanged, so it
lies in 0–100 exactly when the payload's does. -/
theorem humidity_is_payload_humidity (city : String) (d : WeatherPayload)
    (hd : 0 ≤ d.main_humidity ∧ d.main_humidity ≤ 100) :
    (0 ≤ (mockRecord city).humidity ∧ (mockRecord city).humidity ≤ 100) ∧
    (liveRecord d).humidity = d.main_humidity ∧
    (0 ≤ (liveRecord d).humidity ∧ (liveRecord d).humidity ≤ 100) :=
  ⟨⟨by norm_num [mockRecord], by norm_num [mockRecord]⟩, rfl, hd.1, hd.2⟩

/-- Witness for `humidity_is_payload_humidity` on a payload with humidity
80. -/
theorem humidity_is_payload_humidity_witness :
    (0 ≤ payloadLondon.main_humidity ∧ payloadLondon.main_humidity ≤ 100) ∧
    ((0 ≤ (mockRecord "London").humidity ∧ (mockRecord "London").humidity ≤ 100) ∧
      (liveRecord payloadLondon).humidity = payloadLondon.main_humidity ∧
      (0 ≤ (liveRecord payloadLondon).humidity ∧
        (liveRecord payloadLondon).humidity ≤ 100)) :=
  ⟨⟨by decide, by decide⟩,
   humidity_is_payload_humidity "London" payloadLondon ⟨by decide, by decide⟩⟩

/-- Claim C9: `fetch_weather_data` only reads the module state (the
`OPENWEATHER_API_KEY` global, set once at import) and never writes it, so a
call leaves the state unchanged, and a second call made after the first,
with the same city and the same upstream behaviour, returns the identical
record-or-failure and the identical network trace. -/
theorem fetch_two_calls_identical (st : ModuleState) (city : String)
    (upstream : UpstreamResult) :
    (fetchCall st city upstream).2 = st ∧
    (fetchCall ((fetchCall st city upstream).2) city upstream).1 =
      (fetchCall st city upstream).1 :=
  ⟨rfl, rfl⟩

/-- Claim C10: in the debug variant, the placeholder credential makes the
`get_weather` tool return a mock string reporting 22 °C, sunny and 60%
humidity for the input city, with no HTTP request — constants that differ
from the 22.5 °C / 65% / "Partly Cloudy" mock record of the other
variants. -/
theorem debug_mock_constants_differ (showFloat : ℚ → String)
    (statusText : Nat → String) (city : String) (upstream : UpstreamResult) :
    debug_get_weather showFloat statusText "your_api_key_here" city upstream =
      ("🌤️ [YOUR CUSTOM MCP SERVER] Mock weather for " ++ city ++
         ": 22°C, sunny, 60% humidity", []) ∧
    (mockRecord city).temperature_celsius ≠ 22 ∧
    (mockRecord city).humidity ≠ 60 ∧
    (mockRecord city).condition ≠ "sunny" := by
  refine ⟨rfl, ?_, ?_, ?_⟩
  · show (22.5 : ℚ) ≠ 22
    norm_num
  · show (65 : ℤ) ≠ 60
    decide
  · show ("Partly Cloudy" : String) ≠ "sunny"
    decide

end WeatherMCP
